import Mathlib

/-!
# Verification of the Go repository-pattern example

A shallow embedding of the repository's Go sources:

* `repository/user.go` — the `User` entity and the `UserRepository` interface;
* `repository/mock_user_repository.go` — the in-memory `MockUserRepository`
  test double (map from id to user, plus an injectable error);
* `repository/postgres_user_repository.go` — the SQL-backed
  `PostgresUserRepository` (the external `sql.DB` is modelled as an oracle
  supplying the outcome of each query);
* `service/user_service.go` — the pass-through `UserService`.

Go conventions carried into the embedding:

* a Go `(*User, error)` result becomes `Option User × Option GoError`;
* a Go `error` value is `Option GoError`, with `GoError.errNew msg`
  standing for `errors.New(msg)` compared by message (error "kind");
* a Go map that may be `nil` becomes `Option (List (Int × User))`
  (association list with unique keys); reading a `nil` map yields the
  zero value, writing to it panics, which the embedding of `SaveUser`
  renders as the `none` outcome.
-/

/-- Go `error` values as they occur in this repository: `errors.New(msg)`
(compared by message, the error "kind"), the sentinel `sql.ErrNoRows`, and
opaque failures coming from the external store or injected by a test. -/
inductive GoError where
  | errNew (msg : String)
  | sqlErrNoRows
  | opaqueFailure (code : Nat)
deriving DecidableEq, Repr

/-- The `errors.New("user not found")` error kind both repository
implementations construct for a missing id. -/
def userNotFoundErr : GoError := GoError.errNew "user not found"

/-- `type User struct { ID int; Name string; Email string }`. -/
structure User where
  ID : Int
  Name : String
  Email : String
deriving DecidableEq, Repr

/-- Lookup in the association-list model of a Go `map[int]*User`:
`user, exists := m[id]`, returning `none` when `exists` is false. -/
def mapLookup (m : List (Int × User)) (k : Int) : Option User :=
  match m with
  | [] => none
  | (k2, v) :: rest => if k2 = k then some v else mapLookup rest k

/-- Assignment `m[k] = v` on the association-list model of a Go map:
overwrite the entry with key `k` if present, otherwise append it. -/
def mapInsert (m : List (Int × User)) (k : Int) (v : User) : List (Int × User) :=
  match m with
  | [] => [(k, v)]
  | (k2, v2) :: rest => if k2 = k then (k, v) :: rest else (k2, v2) :: mapInsert rest k v

/-- `type MockUserRepository struct { Users map[int]*User; Err error }`.
`Users = none` models a `nil` map (the Go zero value). -/
structure MockUserRepository where
  Users : Option (List (Int × User))
  Err : Option GoError
deriving DecidableEq, Repr

/-- `func (m *MockUserRepository) FindUserByID(id int) (*User, error)`:
return the injected error if one is set; otherwise look the id up in the
map (a `nil` map reads as empty) and return the user, or
`errors.New("user not found")` when absent. The method mutates nothing,
so the state is threaded back unchanged in every branch. -/
def MockUserRepository.FindUserByID (m : MockUserRepository) (id : Int) :
    MockUserRepository × Option User × Option GoError :=
  match m.Err with
  | some e => (m, none, some e)
  | none =>
    match m.Users with
    | none => (m, none, some userNotFoundErr)
    | some mp =>
      match mapLookup mp id with
      | none => (m, none, some userNotFoundErr)
      | some user => (m, some user, none)

/-- `func (m *MockUserRepository) SaveUser(user *User) error`:
return the injected error if one is set; otherwise perform
`m.Users[user.ID] = user`. The outcome is `some (state, goError)` for a
normal return and `none` for the Go runtime panic raised by assigning
into a `nil` map. The user itself is never written to. -/
def MockUserRepository.SaveUser (m : MockUserRepository) (user : User) :
    Option (MockUserRepository × Option GoError) :=
  match m.Err with
  | some e => some (m, some e)
  | none =>
    match m.Users with
    | none => none
    | some mp => some ({ m with Users := some (mapInsert mp user.ID user) }, none)

/-- What the single-row query `SELECT id, name, email FROM users WHERE
id = $1` followed by `row.Scan(&user.ID, &user.Name, &user.Email)`
produces: either a scanned row or an error (possibly `sql.ErrNoRows`).
The external store decides which; the embedding takes it as input. -/
inductive ScanResult where
  | row (id : Int) (name : String) (email : String)
  | fail (e : GoError)
deriving DecidableEq, Repr

/-- What `INSERT INTO users (name, email) VALUES ($1, $2) RETURNING id`
followed by `Scan(&user.ID)` produces: the store-generated id, or an
error (in which case `Scan` assigns nothing). -/
inductive InsertResult where
  | generated (id : Int)
  | fail (e : GoError)
deriving DecidableEq, Repr

/-- `func (r *PostgresUserRepository) FindUserByID(id int) (*User, error)`:
scan the row into a fresh `User`; on `sql.ErrNoRows` return
`errors.New("user not found")`, on any other error return it unchanged.
The store's response to the query is the `scan` oracle argument. -/
def PostgresUserRepository.FindUserByID (scan : ScanResult) :
    Option User × Option GoError :=
  match scan with
  | ScanResult.fail e =>
    if e = GoError.sqlErrNoRows then (none, some userNotFoundErr) else (none, some e)
  | ScanResult.row i n em => (some ⟨i, n, em⟩, none)

/-- `func (r *PostgresUserRepository) SaveUser(user *User) error`:
run the insert and scan the generated id into `user.ID`; on error return
it unchanged (and `user` is left as it was, since `Scan` assigned
nothing). Returns the (possibly updated) user and the Go error. The
store's response to the insert is the `ins` oracle argument. -/
def PostgresUserRepository.SaveUser (ins : InsertResult) (user : User) :
    User × Option GoError :=
  match ins with
  | InsertResult.generated i => ({ user with ID := i }, none)
  | InsertResult.fail e => (user, some e)

/-- The `UserRepository` interface over an abstract receiver-state type
`σ`: `FindUserByID(id int) (*User, error)` and `SaveUser(user *User)
error`. Both methods may change the receiver state; `SaveUser` takes the
user by pointer (so the returned user reflects any write-back) and may
panic (`none`). -/
structure UserRepositoryImpl (σ : Type) where
  FindUserByID : σ → Int → σ × Option User × Option GoError
  SaveUser : σ → User → Option (σ × User × Option GoError)

/-- The mock repository viewed through the `UserRepository` interface:
`SaveUser` never writes to the user, so the user comes back unchanged. -/
def mockImpl : UserRepositoryImpl MockUserRepository where
  FindUserByID := MockUserRepository.FindUserByID
  SaveUser := fun m user =>
    (MockUserRepository.SaveUser m user).map (fun r => (r.1, user, r.2))

/-- `type UserService struct { Repo repository.UserRepository }`. -/
structure UserService (σ : Type) where
  Repo : UserRepositoryImpl σ

/-- `func (s *UserService) GetUser(id int) (*repository.User, error) {
return s.Repo.FindUserByID(id) }`. -/
def UserService.GetUser (s : UserService σ) (st : σ) (id : Int) :
    σ × Option User × Option GoError :=
  s.Repo.FindUserByID st id

/-- `func (s *UserService) CreateUser(user *repository.User) error {
return s.Repo.SaveUser(user) }`. -/
def UserService.CreateUser (s : UserService σ) (st : σ) (user : User) :
    Option (σ × User × Option GoError) :=
  s.Repo.SaveUser st user

/-- The id under which the in-memory state stores a user, looking through
a possibly-`nil` map (a `nil` map has no keys). -/
def MockUserRepository.stateLookup (m : MockUserRepository) (id : Int) : Option User :=
  match m.Users with
  | none => none
  | some mp => mapLookup mp id

/-! ## Helper lemmas about the association-list map model -/

theorem mapLookup_mapInsert_self (m : List (Int × User)) (k : Int) (v : User) :
    mapLookup (mapInsert m k v) k = some v := by
  induction m with
  | nil => simp [mapInsert, mapLookup]
  | cons p rest ih =>
    obtain ⟨k2, v2⟩ := p
    by_cases h : k2 = k <;> simp [mapInsert, mapLookup, h, ih]

theorem mapLookup_mapInsert_ne (m : List (Int × User)) (k k2 : Int) (v : User)
    (h : k2 ≠ k) : mapLookup (mapInsert m k v) k2 = mapLookup m k2 := by
  induction m with
  | nil => simp [mapInsert, mapLookup, Ne.symm h]
  | cons p rest ih =>
    obtain ⟨k3, v3⟩ := p
    by_cases h3 : k3 = k
    · subst h3
      simp [mapInsert, mapLookup, Ne.symm h]
    · simp [mapInsert, mapLookup, h3, ih]

theorem mem_keys_mapInsert (m : List (Int × User)) (k : Int) (v : User) (x : Int) :
    x ∈ (mapInsert m k v).map Prod.fst ↔ x = k ∨ x ∈ m.map Prod.fst := by
  induction m with
  | nil => simp [mapInsert]
  | cons p rest ih =>
    obtain ⟨k2, v2⟩ := p
    by_cases h : k2 = k <;> simp [mapInsert, h, ih]
    tauto

theorem keys_nodup_mapInsert (m : List (Int × User)) (k : Int) (v : User)
    (h : (m.map Prod.fst).Nodup) : ((mapInsert m k v).map Prod.fst).Nodup := by
  induction m with
  | nil => simp [mapInsert]
  | cons p rest ih =>
    obtain ⟨k2, v2⟩ := p
    simp only [List.map_cons, List.nodup_cons] at h
    by_cases hk : k2 = k
    · subst hk
      simpa [mapInsert] using h
    · simp only [mapInsert, hk, if_false, List.map_cons, List.nodup_cons]
      refine ⟨fun hmem => ?_, ih h.2⟩
      rcases (mem_keys_mapInsert rest k v k2).1 hmem with h1 | h1
      · exact hk h1
      · exact h.1 h1

/-! ## Helper lemmas about the in-memory repository -/

theorem mock_find_absent (m : MockUserRepository) (id : Int)
    (herr : m.Err = none) (habs : m.stateLookup id = none) :
    m.FindUserByID id = (m, none, some userNotFoundErr) := by
  obtain ⟨users, err⟩ := m
  subst herr
  unfold MockUserRepository.stateLookup at habs
  cases users with
  | none => rfl
  | some mp =>
    simp only at habs
    simp [MockUserRepository.FindUserByID, habs]

theorem mock_save_success (m : MockUserRepository) (mp : List (Int × User)) (u : User)
    (herr : m.Err = none) (hmap : m.Users = some mp) :
    MockUserRepository.SaveUser m u
      = some ({ m with Users := some (mapInsert mp u.ID u) }, none) := by
  obtain ⟨users, err⟩ := m
  subst herr
  simp only at hmap
  subst hmap
  rfl

/-! ## Claim theorems -/

/-- C1, counterexample: the claim quantifies over every in-memory
repository state with no injected error, but at the state whose `Users`
map is still `nil` (the Go zero value) and `Err` is `nil`, `SaveUser`
does not succeed: the assignment into the `nil` map panics (outcome
`none`), so no subsequent `FindUserByID` can return the saved user. -/
theorem C1_counterexample_nil_map :
    MockUserRepository.SaveUser ⟨none, none⟩ ⟨2, "Jane Doe", "jane.doe@example.com"⟩
      = none := rfl

/-- C1 (amended): for every User `u` and every in-memory repository state
with an initialized (non-`nil`) `Users` map and no injected error,
`SaveUser u` succeeds, and `FindUserByID u.ID` on the resulting
repository succeeds and returns a User equal to the one saved. -/
theorem C1_save_then_find (m : MockUserRepository) (mp : List (Int × User)) (u : User)
    (herr : m.Err = none) (hmap : m.Users = some mp) :
    ∃ m2 : MockUserRepository,
      MockUserRepository.SaveUser m u = some (m2, none) ∧
      MockUserRepository.FindUserByID m2 u.ID = (m2, some u, none) := by
  refine ⟨{ m with Users := some (mapInsert mp u.ID u) }, mock_save_success m mp u herr hmap, ?_⟩
  simp [MockUserRepository.FindUserByID, herr, mapLookup_mapInsert_self]

/-- C1 witness: scenario 3 of the spec — empty store, save Jane Doe under
id 2, then find id 2 returns that same User. -/
theorem C1_save_then_find_witness :
    ∃ m2 : MockUserRepository,
      MockUserRepository.SaveUser ⟨some [], none⟩ ⟨2, "Jane Doe", "jane.doe@example.com"⟩
        = some (m2, none) ∧
      MockUserRepository.FindUserByID m2 2
        = (m2, some ⟨2, "Jane Doe", "jane.doe@example.com"⟩, none) :=
  C1_save_then_find ⟨some [], none⟩ [] ⟨2, "Jane Doe", "jane.doe@example.com"⟩ rfl rfl

/-- C2: the service is a pure pass-through — for every repository
implementation, state, id and user, `GetUser` returns exactly what the
injected repository's `FindUserByID` returns and `CreateUser` returns
exactly what `SaveUser` returns, with the same effect on repository
state (the returned state components coincide). -/
theorem C2_service_pass_through {σ : Type} (impl : UserRepositoryImpl σ)
    (st : σ) (id : Int) (u : User) :
    (UserService.mk impl).GetUser st id = impl.FindUserByID st id ∧
    (UserService.mk impl).CreateUser st u = impl.SaveUser st u :=
  ⟨rfl, rfl⟩

/-- C3: when an error is injected (`Err` non-`nil`), `FindUserByID`
returns that error (not NotFound) for every id regardless of store
contents, and `SaveUser` returns that error for every user while leaving
the whole repository state — in particular the stored map — unchanged. -/
theorem C3_injected_error (m : MockUserRepository) (e : GoError) (h : m.Err = some e) :
    (∀ id : Int, m.FindUserByID id = (m, none, some e)) ∧
    (∀ u : User, m.SaveUser u = some (m, some e)) := by
  constructor
  · intro id
    simp [MockUserRepository.FindUserByID, h]
  · intro u
    simp [MockUserRepository.SaveUser, h]

/-- C3 witness: a store holding John Doe with injected error
`opaqueFailure 7` — lookup of id 1 and save of Jane Doe both return the
injected error and leave the state unchanged. -/
theorem C3_injected_error_witness :
    MockUserRepository.FindUserByID
        ⟨some [(1, ⟨1, "John Doe", "john.doe@example.com"⟩)], some (GoError.opaqueFailure 7)⟩ 1
      = (⟨some [(1, ⟨1, "John Doe", "john.doe@example.com"⟩)], some (GoError.opaqueFailure 7)⟩,
         none, some (GoError.opaqueFailure 7)) ∧
    MockUserRepository.SaveUser
        ⟨some [(1, ⟨1, "John Doe", "john.doe@example.com"⟩)], some (GoError.opaqueFailure 7)⟩
        ⟨2, "Jane Doe", "jane.doe@example.com"⟩
      = some (⟨some [(1, ⟨1, "John Doe", "john.doe@example.com"⟩)], some (GoError.opaqueFailure 7)⟩,
         some (GoError.opaqueFailure 7)) :=
  ⟨(C3_injected_error _ _ rfl).1 1, (C3_injected_error _ _ rfl).2 ⟨2, "Jane Doe", "jane.doe@example.com"⟩⟩

/-- C4: for every id not a key of the in-memory store (also when the map
is `nil`), with no injected error, `FindUserByID` returns the
`errors.New("user not found")` NotFound error together with a `nil`
User. -/
theorem C4_find_absent (m : MockUserRepository) (id : Int)
    (herr : m.Err = none) (habs : m.stateLookup id = none) :
    m.FindUserByID id = (m, none, some userNotFoundErr) :=
  mock_find_absent m id herr habs

/-- C4 witness: scenario 2 of the spec — store containing only id 1
(John Doe), lookup of id 2 yields NotFound and no User. -/
theorem C4_find_absent_witness :
    MockUserRepository.FindUserByID ⟨some [(1, ⟨1, "John Doe", "john.doe@example.com"⟩)], none⟩ 2
      = (⟨some [(1, ⟨1, "John Doe", "john.doe@example.com"⟩)], none⟩,
         none, some userNotFoundErr) :=
  C4_find_absent ⟨some [(1, ⟨1, "John Doe", "john.doe@example.com"⟩)], none⟩ 2 rfl (by decide)

/-- C5: the relational `FindUserByID` maps the store's "no rows" outcome
(`sql.ErrNoRows`) to exactly the error the in-memory repository returns
for an absent id — the same `errors.New("user not found")` kind — and
propagates any other query failure unchanged, so callers distinguish
NotFound from other failures identically under either implementation. -/
theorem C5_notfound_parity :
    PostgresUserRepository.FindUserByID (ScanResult.fail GoError.sqlErrNoRows)
      = (none, some userNotFoundErr) ∧
    (∀ (m : MockUserRepository) (id : Int), m.Err = none → m.stateLookup id = none →
      (m.FindUserByID id).2 = (none, some userNotFoundErr)) ∧
    (∀ e : GoError, e ≠ GoError.sqlErrNoRows →
      PostgresUserRepository.FindUserByID (ScanResult.fail e) = (none, some e)) := by
  refine ⟨rfl, fun m id herr habs => ?_, fun e he => ?_⟩
  · rw [mock_find_absent m id herr habs]
  · simp [PostgresUserRepository.FindUserByID, he]

/-- C5 witness: the mock's NotFound at an absent id 2 equals the error
the relational repository produces for "no rows", and an opaque query
failure is propagated unchanged. -/
theorem C5_notfound_parity_witness :
    (MockUserRepository.FindUserByID
        ⟨some [(1, ⟨1, "John Doe", "john.doe@example.com"⟩)], none⟩ 2).2
      = (none, some userNotFoundErr) ∧
    PostgresUserRepository.FindUserByID (ScanResult.fail (GoError.opaqueFailure 3))
      = (none, some (GoError.opaqueFailure 3)) :=
  ⟨C5_notfound_parity.2.1 ⟨some [(1, ⟨1, "John Doe", "john.doe@example.com"⟩)], none⟩ 2 rfl (by decide),
   C5_notfound_parity.2.2 (GoError.opaqueFailure 3) (by decide)⟩

/-- C6: the relational `SaveUser` writes the store-generated id back into
the passed User's `ID` field on success, and on any failure returns the
error unchanged (no wrapping or remapping) with the User untouched. -/
theorem C6_postgres_save_writes_back (i : Int) (u : User) (e : GoError) (u2 : User) :
    PostgresUserRepository.SaveUser (InsertResult.generated i) u = ({ u with ID := i }, none) ∧
    PostgresUserRepository.SaveUser (InsertResult.fail e) u2 = (u2, some e) :=
  ⟨rfl, rfl⟩

/-- C7, counterexample: re-saving an already-persisted User through the
relational repository changes its id. John Doe was persisted with id 1;
`SaveUser` always runs a fresh `INSERT ... RETURNING id` and overwrites
`user.ID` with the newly generated id (here 2), so the id assigned at
first persistence is not preserved. -/
theorem C7_counterexample_resave_changes_id :
    ((PostgresUserRepository.SaveUser (InsertResult.generated 2)
        ⟨1, "John Doe", "john.doe@example.com"⟩).1).ID ≠ 1 := by
  decide

/-- C7 (amended): in-memory operations never change a persisted User's
id — the mock's `SaveUser` hands the user back unmodified and its
`FindUserByID` returns exactly the stored user — and the keys of the
in-memory map stay unique under insertion; the relational `SaveUser`,
however, overwrites the User's id with the store-generated id on every
call, so re-saving an already-persisted User through it reassigns the
id rather than preserving it. -/
theorem C7_id_stability :
    (∀ (m : MockUserRepository) (u : User) (r : MockUserRepository × User × Option GoError),
        mockImpl.SaveUser m u = some r → r.2.1 = u) ∧
    (∀ (m : MockUserRepository) (id : Int) (u : User),
        (m.FindUserByID id).2.1 = some u → m.stateLookup id = some u) ∧
    (∀ (mp : List (Int × User)) (k : Int) (v : User),
        (mp.map Prod.fst).Nodup → ((mapInsert mp k v).map Prod.fst).Nodup) ∧
    (∀ (i : Int) (u : User),
        ((PostgresUserRepository.SaveUser (InsertResult.generated i) u).1).ID = i) := by
  refine ⟨fun m u r hr => ?_, fun m id u hu => ?_, keys_nodup_mapInsert, fun i u => rfl⟩
  · cases h : MockUserRepository.SaveUser m u with
    | none => simp [mockImpl, h] at hr
    | some x =>
      simp only [mockImpl, h, Option.map_some] at hr
      cases hr
      rfl
  · obtain ⟨users, err⟩ := m
    cases err with
    | some e => simp [MockUserRepository.FindUserByID] at hu
    | none =>
      cases users with
      | none => simp [MockUserRepository.FindUserByID] at hu
      | some mp =>
        simp only [MockUserRepository.FindUserByID] at hu
        simp only [MockUserRepository.stateLookup]
        cases h : mapLookup mp id with
        | none => rw [h] at hu; simp at hu
        | some w => rw [h] at hu; simp at hu; rw [hu]

/-- C7 witness: the mock save of John Doe into an empty store hands the
user back with id 1 intact; the stored user found at key 1 is John Doe
unchanged; and inserting Jane under key 2 keeps the key list duplicate
free. -/
theorem C7_id_stability_witness :
    ((⟨some [(1, ⟨1, "John Doe", "john.doe@example.com"⟩)], none⟩,
        ⟨1, "John Doe", "john.doe@example.com"⟩, none) :
          MockUserRepository × User × Option GoError).2.1
      = ⟨1, "John Doe", "john.doe@example.com"⟩ ∧
    MockUserRepository.stateLookup ⟨some [(1, ⟨1, "John Doe", "john.doe@example.com"⟩)], none⟩ 1
      = some ⟨1, "John Doe", "john.doe@example.com"⟩ ∧
    ((mapInsert [(1, ⟨1, "John Doe", "john.doe@example.com"⟩)] 2
        ⟨2, "Jane Doe", "jane.doe@example.com"⟩).map Prod.fst).Nodup :=
  ⟨C7_id_stability.1 ⟨some [], none⟩ ⟨1, "John Doe", "john.doe@example.com"⟩ _ (by decide),
   C7_id_stability.2.1 ⟨some [(1, ⟨1, "John Doe", "john.doe@example.com"⟩)], none⟩ 1
     ⟨1, "John Doe", "john.doe@example.com"⟩ (by decide),
   C7_id_stability.2.2.1 [(1, ⟨1, "John Doe", "john.doe@example.com"⟩)] 2
     ⟨2, "Jane Doe", "jane.doe@example.com"⟩ (by decide)⟩

/-- C8, counterexample: the claim quantifies over every in-memory state
with no injected error, but when the `Users` map is still `nil` (the Go
zero value) `SaveUser` does not succeed: the map assignment panics
(outcome `none`) instead of inserting the entry. -/
theorem C8_counterexample_nil_map :
    MockUserRepository.SaveUser ⟨none, none⟩ ⟨1, "John Doe", "john.doe@example.com"⟩
      = none := rfl

/-- C8 (amended): for every User `u` and every in-memory state with an
initialized (non-`nil`) `Users` map and no injected error, `SaveUser u`
succeeds, maps key `u.ID` to `u`, leaves the entry at every other key
unchanged, and hands `u` back unmodified — it never assigns or changes
`u`'s id (no auto-increment). -/
theorem C8_save_frame (m : MockUserRepository) (mp : List (Int × User)) (u : User)
    (herr : m.Err = none) (hmap : m.Users = some mp) :
    ∃ mp2 : List (Int × User),
      MockUserRepository.SaveUser m u = some ({ m with Users := some mp2 }, none) ∧
      mockImpl.SaveUser m u = some ({ m with Users := some mp2 }, u, none) ∧
      mapLookup mp2 u.ID = some u ∧
      (∀ k : Int, k ≠ u.ID → mapLookup mp2 k = mapLookup mp k) := by
  refine ⟨mapInsert mp u.ID u, mock_save_success m mp u herr hmap, ?_,
    mapLookup_mapInsert_self mp u.ID u, fun k hk => mapLookup_mapInsert_ne mp u.ID k u hk⟩
  simp [mockImpl, mock_save_success m mp u herr hmap]

/-- C8 witness: saving Jane Doe (id 2) into a store holding John Doe at
key 1 inserts key 2, preserves key 1, and returns Jane unmodified. -/
theorem C8_save_frame_witness :
    ∃ mp2 : List (Int × User),
      MockUserRepository.SaveUser ⟨some [(1, ⟨1, "John Doe", "john.doe@example.com"⟩)], none⟩
          ⟨2, "Jane Doe", "jane.doe@example.com"⟩
        = some (⟨some mp2, none⟩, none) ∧
      mockImpl.SaveUser ⟨some [(1, ⟨1, "John Doe", "john.doe@example.com"⟩)], none⟩
          ⟨2, "Jane Doe", "jane.doe@example.com"⟩
        = some (⟨some mp2, none⟩, ⟨2, "Jane Doe", "jane.doe@example.com"⟩, none) ∧
      mapLookup mp2 2 = some ⟨2, "Jane Doe", "jane.doe@example.com"⟩ ∧
      (∀ k : Int, k ≠ 2 →
        mapLookup mp2 k = mapLookup [(1, ⟨1, "John Doe", "john.doe@example.com"⟩)] k) :=
  C8_save_frame ⟨some [(1, ⟨1, "John Doe", "john.doe@example.com"⟩)], none⟩
    [(1, ⟨1, "John Doe", "john.doe@example.com"⟩)]
    ⟨2, "Jane Doe", "jane.doe@example.com"⟩ rfl rfl

/-- C9: `FindUserByID` is read-only — for every state and id it hands the
repository back exactly as it was, `Users` map and `Err` field included,
whether it returns a User, NotFound, or the injected error. -/
theorem C9_find_readonly (m : MockUserRepository) (id : Int) :
    (m.FindUserByID id).1 = m ∧
    (m.FindUserByID id).1.Users = m.Users ∧
    (m.FindUserByID id).1.Err = m.Err := by
  have h : (m.FindUserByID id).1 = m := by
    obtain ⟨users, err⟩ := m
    unfold MockUserRepository.FindUserByID
    cases err with
    | some e => rfl
    | none =>
      cases users with
      | none => rfl
      | some mp =>
        simp only
        cases mapLookup mp id <;> rfl
  exact ⟨h, by rw [h], by rw [h]⟩

/-- C10: `SaveUser` is only total when the `Users` map is initialized —
on a state whose map is `nil` with no injected error, the map assignment
panics (outcome `none`) for every input User, while `FindUserByID` on
the same state safely returns NotFound for every id. -/
theorem C10_nil_map_save_panics (m : MockUserRepository)
    (hmap : m.Users = none) (herr : m.Err = none) :
    (∀ u : User, MockUserRepository.SaveUser m u = none) ∧
    (∀ id : Int, m.FindUserByID id = (m, none, some userNotFoundErr)) := by
  obtain ⟨users, err⟩ := m
  subst herr
  simp only at hmap
  subst hmap
  exact ⟨fun u => rfl, fun id => rfl⟩

/-- C10 witness: at the zero-value repository state, saving any concrete
user panics and any concrete lookup returns NotFound. -/
theorem C10_nil_map_save_panics_witness :
    MockUserRepository.SaveUser ⟨none, none⟩ ⟨3, "Ada", "ada@example.com"⟩ = none ∧
    MockUserRepository.FindUserByID ⟨none, none⟩ 3
      = (⟨none, none⟩, none, some userNotFoundErr) :=
  ⟨(C10_nil_map_save_panics ⟨none, none⟩ rfl rfl).1 ⟨3, "Ada", "ada@example.com"⟩,
   (C10_nil_map_save_panics ⟨none, none⟩ rfl rfl).2 3⟩
